import Mathlib

/-!
Verification of the bikeshare filtering-and-aggregation engine
(`bikeshare_2.py`) against its natural-language specification.

The pandas program is shallowly embedded: a trip record is a structure,
a loaded dataframe is a list of records plus two schema flags (presence of
the optional `Gender` and `Birth Year` columns), and every statistics
function is a pure Lean function on that data.  Library primitives are
embedded by their documented semantics:

* `Series.mode()` returns the most frequent values in ascending sorted
  order, so `mode()[0]` is the least value among those sharing the
  maximum count; on an empty series `mode()` is empty and `[0]` raises
  `KeyError`.
* `groupby([k1, k2]).size().idxmax()` sorts the group keys, so it returns
  the lexicographically least key pair among those of maximal count, and
  raises `ValueError` on an empty frame.
* Python float arithmetic on trip-duration means is modelled by exact
  rationals (`ℚ`), with `x // y` as `⌊x / y⌋` and `x % y` as
  `x - y * ⌊x / y⌋` for positive `y`; `int(nan)` (min of an empty
  series) raises `ValueError`.
* boolean-mask selection `df[mask]` reads the frame and builds a new one;
  it never writes to the frame it reads.
-/

namespace Bikeshare

/-- Lowercase full month names, in calendar order, as produced by
`dt.month_name().str.lower()`. -/
def monthNames : List String :=
  ["january", "february", "march", "april", "may", "june",
   "july", "august", "september", "october", "november", "december"]

/-- Lowercase full weekday names, Monday first, as produced by
`dt.day_name().str.lower()`. -/
def dayNames : List String :=
  ["monday", "tuesday", "wednesday", "thursday", "friday", "saturday", "sunday"]

/-- Decoded start timestamp of a trip: the month number (1 to 12), the
weekday number (0 = Monday) and the hour (0 to 23), i.e. exactly the three
facts `load_data` extracts from `pd.to_datetime(df[\x27Start Time\x27])`. -/
structure Timestamp where
  monthNum : Nat
  dowNum : Nat
  hourNum : Nat
deriving DecidableEq, Repr

/-- Raw trip record as read from a city csv: required columns plus the two
optional ones (`none` when the column is absent from the file or the value
is missing). -/
structure Trip where
  start : Timestamp
  duration : Nat
  startStation : String
  endStation : String
  userType : String
  gender : Option String := none
  birthYear : Option Int := none
deriving DecidableEq, Repr

/-- Month name of a timestamp, lowercased (line 64 of the source). -/
def monthName (t : Timestamp) : String := monthNames.getD (t.monthNum - 1) ""

/-- Weekday name of a timestamp, lowercased (line 65 of the source). -/
def dayName (t : Timestamp) : String := dayNames.getD t.dowNum ""

/-- Trip record after `load_data` added the three derived columns
`month`, `day_of_week` and `hour` (lines 63 to 66). -/
structure Record extends Trip where
  month : String
  day_of_week : String
  hour : Nat
deriving DecidableEq, Repr

/-- Computation of the three derived columns for one record. -/
def derive (t : Trip) : Record :=
  { toTrip := t
    month := monthName t.start
    day_of_week := dayName t.start
    hour := t.start.hourNum }

/-- Derived-column pass of `load_data`: every loaded record gets its
`month`, `day_of_week` and `hour` columns. -/
def addDerived (src : List Trip) : List Record := src.map derive

/-- Month filter of `load_data` (lines 68 to 69): when the selector is not
"all", keep the records whose derived month equals it. -/
def filterMonth (rows : List Record) (month : String) : List Record :=
  if month ≠ "all" then rows.filter (fun r => r.month = month) else rows

/-- Day filter of `load_data` (lines 71 to 72). -/
def filterDay (rows : List Record) (day : String) : List Record :=
  if day ≠ "all" then rows.filter (fun r => r.day_of_week = day) else rows

/-- Rows of the dataframe returned by `load_data`: derive, filter by month,
filter by day, in the order of the source. -/
def loadRows (src : List Trip) (month day : String) : List Record :=
  filterDay (filterMonth (addDerived src) month) day

/-- Loaded dataframe: its rows and the schema facts the statistics
functions branch on (`'Gender' in df.columns`, `'Birth Year' in df.columns`). -/
structure DataFrame where
  rows : List Record
  hasGender : Bool
  hasBirthYear : Bool
deriving DecidableEq, Repr

/-- The dataframe returned by `load_data(city, month, day)`, with the city
csv abstracted as the list of raw trips it holds plus its two schema
flags. -/
def load_data (src : List Trip) (hasG hasB : Bool) (month day : String) : DataFrame :=
  { rows := loadRows src month day, hasGender := hasG, hasBirthYear := hasB }

/-- Integer decomposition of a duration total into days, hours, minutes and
seconds, exactly as lines 135 to 138 of `trip_duration_stats` compute it. -/
def durationDecompose (total : Nat) : Nat × Nat × Nat × Nat :=
  (total / 86400, (total % 86400) / 3600, (total % 3600) / 60, total % 60)

/-- Sum of the `Trip Duration` column (line 134). -/
def sumDurations (rows : List Record) : Nat :=
  (rows.map (fun r => r.duration)).sum

/-- Python float modulo `x % y` for positive `y`, on exact rationals. -/
def pyMod (x y : ℚ) : ℚ := x - y * ⌊x / y⌋

/-- Decomposition of the float mean into days, hours, minutes and seconds,
exactly as lines 141 to 145 compute it: `mean = total / count` in float
arithmetic (modelled exactly in `ℚ`), then `int(mean // 86400)`,
`int((mean % 86400) // 3600)`, `int((mean % 3600) // 60)`, `int(mean % 60)`;
all four intermediates are nonnegative, so `int` truncation is the floor. -/
def meanDecompose (total count : Nat) : Int × Int × Int × Int :=
  let q : ℚ := (total : ℚ) / (count : ℚ)
  (⌊q / 86400⌋, ⌊pyMod q 86400 / 3600⌋, ⌊pyMod q 3600 / 60⌋, ⌊pyMod q 60⌋)

/-- Values of a series whose count is maximal, i.e. the value set of
`Series.mode()` before sorting (kept with multiplicity; `argmin` below
ignores duplicates). -/
def modeCandidates {α : Type} [DecidableEq α] (l : List α) : List α :=
  l.filter (fun v => l.all (fun w => l.count w ≤ l.count v))

/-- Embedding of `Series.mode()[0]`: `mode()` lists the most frequent
values in ascending sorted order, so `[0]` is the least value among those
of maximal count; `none` models the `KeyError` raised by `[0]` when the
series is empty. -/
def pandasModeHead {α : Type} [DecidableEq α] [LinearOrder α] (l : List α) : Option α :=
  (modeCandidates l).argmin id

/-- Modelled from the spec: the tie-break policy the specification states
for the mode, namely the most frequent value that appears FIRST in the
dataset load order.  Compared below with `pandasModeHead`, which is what
the code computes. -/
def specModeFirst {α : Type} [DecidableEq α] (l : List α) : Option α :=
  l.argmax (fun v => l.count v)

/-- Result of `time_stats` (lines 89 to 91): mode of the `month`,
`day_of_week` and `hour` columns, in that order; the error carries the
exception raised on an empty series. -/
def timeStats (rows : List Record) : Except String (String × String × Nat) := do
  let some m := pandasModeHead (rows.map (fun r => r.month)) | .error "KeyError"
  let some d := pandasModeHead (rows.map (fun r => r.day_of_week)) | .error "KeyError"
  let some h := pandasModeHead (rows.map (fun r => r.hour)) | .error "KeyError"
  .ok (m, d, h)

/-- Key of one row in `groupby([Start Station, End Station])`, with the
lexicographic order the sorted groupby uses. -/
def comboKey (r : Record) : String ×ₗ String := toLex (r.startStation, r.endStation)

/-- Result of `station_stats` (lines 109 to 116): mode of the start and end
station columns, then `groupby(...).size().idxmax()`, which is the
lexicographically least station pair among those of maximal count;
`ValueError` models `idxmax` on an empty frame. -/
def stationStats (rows : List Record) :
    Except String (String × String × (String ×ₗ String)) := do
  let some s := pandasModeHead (rows.map (fun r => r.startStation)) | .error "KeyError"
  let some e := pandasModeHead (rows.map (fun r => r.endStation)) | .error "KeyError"
  let some c := pandasModeHead (rows.map comboKey) | .error "ValueError"
  .ok (s, e, c)

/-- Distinct values of a list in first-seen order. -/
def firstSeenAux {α : Type} [DecidableEq α] (seen : List α) : List α → List α
  | [] => []
  | a :: rest =>
    if a ∈ seen then firstSeenAux seen rest else a :: firstSeenAux (a :: seen) rest

/-- Stable insertion into a count-descending list: the new entry goes
before the first strictly smaller count, so equal counts keep their
existing order. -/
def insertDesc {α : Type} (p : α × Nat) : List (α × Nat) → List (α × Nat)
  | [] => [p]
  | q :: rest => if q.2 < p.2 then p :: q :: rest else q :: insertDesc p rest

/-- Stable sort by count descending. -/
def sortDesc {α : Type} : List (α × Nat) → List (α × Nat)
  | [] => []
  | p :: rest => insertDesc p (sortDesc rest)

/-- Embedding of `Series.value_counts()`: one entry per distinct value with
its count, sorted by count descending (stable, so ties keep first-seen
order). -/
def valueCounts {α : Type} [DecidableEq α] (l : List α) : List (α × Nat) :=
  sortDesc ((firstSeenAux [] l).map (fun v => (v, l.count v)))

/-- Printed form of a value-counts table. -/
def showCounts (cs : List (String × Nat)) : List String :=
  cs.map (fun p => p.1 ++ ": " ++ toString p.2)

/-- Output of one statistics function: the lines printed before any
exception, and the exception when one is raised. -/
structure StatsOut where
  lines : List String
  err : Option String
deriving DecidableEq, Repr

/-- Embedding of `user_stats` (lines 162 to 192).  User-type counts always
print; the gender section prints counts when the column is present and
"Gender data not available" otherwise; the birth-year section, when the
column is present, takes `int(min)`, `int(max)` and `int(mode()[0])` of the
non-missing values, which raises `ValueError` (`int(nan)`) when there is no
value, and otherwise prints "Birth year data not available". -/
def user_stats (df : DataFrame) : StatsOut :=
  let utLines := showCounts (valueCounts (df.rows.map (fun r => r.userType)))
  let gLines :=
    if df.hasGender then showCounts (valueCounts (df.rows.filterMap (fun r => r.gender)))
    else ["Gender data not available"]
  if df.hasBirthYear then
    let ys := df.rows.filterMap (fun r => r.birthYear)
    match ys.min?, ys.max?, pandasModeHead ys with
    | some lo, some hi, some co =>
      { lines := utLines ++ gLines ++
          ["Earliest: " ++ toString lo, "Most recent: " ++ toString hi,
           "Most common: " ++ toString co]
        err := none }
    | _, _, _ =>
      { lines := utLines ++ gLines
        err := some "ValueError: cannot convert float NaN to integer" }
  else
    { lines := utLines ++ gLines ++ ["Birth year data not available"], err := none }

/-- Month vocabulary of `get_filters` (lines 34 to 35 of the source). -/
def months : List String :=
  ["all", "january", "february", "march", "april", "may", "june"]

/-- Day vocabulary of `get_filters` (lines 40 to 41 of the source). -/
def days : List String :=
  ["all", "monday", "tuesday", "wednesday", "thursday", "friday", "saturday", "sunday"]

/-- Re-prompting loop of `get_filters`, consuming the stream of entered
values (already lowercased, as `input().lower()` produces them): return the
first one belonging to the vocabulary, re-prompting on the rest; `none`
when the input stream runs out without a valid entry. -/
def promptLoop (valid : List String) : List String → Option String
  | [] => none
  | x :: rest => if x ∈ valid then some x else promptLoop valid rest

/-- Boolean-mask selection `df[mask]`: pandas builds a new frame from the
rows the mask keeps and only reads the frame the mask was computed on.  To
make the frame effect visible, the operation returns the new view together
with the post-state of the frame it read. -/
def maskSelect (rows : List Record) (p : Record → Bool) : List Record × List Record :=
  (rows.filter p, rows)

/-- Filtering stage of `load_data` (lines 68 to 72) in state-passing form:
the first component is the frame the local variable `df` ends up holding,
the second is the post-state of the originally loaded (derived) frame. -/
def loadFilterSt (loaded : List Record) (month day : String) :
    List Record × List Record :=
  let s1 := if month ≠ "all" then maskSelect loaded (fun r => r.month = month)
            else (loaded, loaded)
  let s2 := if day ≠ "all" then (s1.1.filter (fun r => r.day_of_week = day), s1.2)
            else s1
  (s2.1, s2.2)

/-- Sample trip used by concrete witnesses: January, a Monday, 9 oclock. -/
def demoTrip : Trip :=
  { start := ⟨1, 0, 9⟩, duration := 100, startStation := "A", endStation := "B",
    userType := "Subscriber" }

/-- Singleton source dataset for the witnesses. -/
def demoSrc : List Trip := [demoTrip]

/-- Trip in March, used to exhibit the mode tie-break. -/
def tripMarch : Trip :=
  { start := ⟨3, 0, 9⟩, duration := 100, startStation := "A", endStation := "B",
    userType := "Subscriber" }

/-- Trip in February, same in every other column. -/
def tripFeb : Trip :=
  { start := ⟨2, 0, 9⟩, duration := 100, startStation := "A", endStation := "B",
    userType := "Subscriber" }

/-- Two-record dataset whose months are tied one against one, with March
first in load order. -/
def tieSrc : List Trip := [tripMarch, tripFeb]

/-- Trip carrying both optional columns, for the gender-present witness. -/
def demoTripG : Trip :=
  { start := ⟨1, 0, 9⟩, duration := 100, startStation := "A", endStation := "B",
    userType := "Subscriber", gender := some "Male", birthYear := some 1990 }

/-- Chicago-style frame (Gender and Birth Year both present) holding the
one record with optional data. -/
def genderDF : DataFrame := ⟨addDerived [demoTripG], true, true⟩

/-- Trip with a prescribed duration, for the duration scenario. -/
def durTrip (n : Nat) : Trip :=
  { start := ⟨1, 0, 9⟩, duration := n, startStation := "A", endStation := "B",
    userType := "Subscriber" }

/-- The three-record dataset of the duration scenario. -/
def durSrc : List Trip := [durTrip 100, durTrip 200, durTrip 4000000]

/-! Helper lemmas, shared by the claim theorems below. -/

/-- Membership characterisation of the rows of `load_data`: a record is in
the filtered frame exactly when it is a loaded record matching every
selector different from "all". -/
lemma mem_loadRows_iff (src : List Trip) (month day : String) (r : Record) :
    r ∈ loadRows src month day ↔
      r ∈ addDerived src ∧ (month ≠ "all" → r.month = month) ∧
        (day ≠ "all" → r.day_of_week = day) := by
  unfold loadRows filterDay filterMonth
  by_cases hm : month = "all" <;> by_cases hd : day = "all" <;>
    simp [hm, hd, List.mem_filter, and_comm]

/-- Rows of `load_data` form a sublist of the loaded, derived records. -/
lemma loadRows_sublist (src : List Trip) (month day : String) :
    (loadRows src month day).Sublist (addDerived src) := by
  have h1 : (filterMonth (addDerived src) month).Sublist (addDerived src) := by
    unfold filterMonth
    split
    · exact List.filter_sublist _
    · exact List.Sublist.refl _
  have h2 : (filterDay (filterMonth (addDerived src) month) day).Sublist
      (filterMonth (addDerived src) month) := by
    unfold filterDay
    split
    · exact List.filter_sublist _
    · exact List.Sublist.refl _
  exact h2.trans h1

/-- The empty filtered frame: when no loaded record matches the selectors,
`load_data` keeps nothing. -/
lemma loadRows_eq_nil (src : List Trip) (month day : String)
    (h : ∀ r ∈ addDerived src,
      ¬((month ≠ "all" → r.month = month) ∧ (day ≠ "all" → r.day_of_week = day))) :
    loadRows src month day = [] := by
  rw [List.eq_nil_iff_forall_not_mem]
  intro r hr
  rw [mem_loadRows_iff] at hr
  exact h r hr.1 ⟨hr.2.1, hr.2.2⟩

/-- Existence and characterisation of `mode()[0]` on a nonempty series: it
is a value of maximal count, and the least such value. -/
lemma pandasModeHead_spec {α : Type} [DecidableEq α] [LinearOrder α] (l : List α)
    (hne : l ≠ []) :
    ∃ m, pandasModeHead l = some m ∧ m ∈ l ∧
      (∀ w ∈ l, l.count w ≤ l.count m) ∧
      (∀ w ∈ l, l.count w = l.count m → m ≤ w) := by
  have hcand : ∃ v, v ∈ modeCandidates l := by
    cases hx : l.argmax (fun v => l.count v) with
    | none => exact absurd (List.argmax_eq_none.mp hx) hne
    | some v =>
      refine ⟨v, List.mem_filter.mpr ⟨List.argmax_mem hx, ?_⟩⟩
      rw [List.all_eq_true]
      intro w hw
      exact decide_eq_true (List.le_of_mem_argmax hw hx)
  obtain ⟨v, hv⟩ := hcand
  cases hm : (modeCandidates l).argmin id with
  | none =>
    rw [List.argmin_eq_none] at hm
    rw [hm] at hv
    exact absurd hv (List.not_mem_nil v)
  | some m =>
    have hmc : m ∈ modeCandidates l := List.argmin_mem hm
    have hmem := List.mem_filter.mp hmc
    have hmax : ∀ w ∈ l, l.count w ≤ l.count m := by
      intro w hw
      have := List.all_eq_true.mp hmem.2 w hw
      exact of_decide_eq_true this
    refine ⟨m, hm, hmem.1, hmax, ?_⟩
    intro w hw hwc
    have hwcand : w ∈ modeCandidates l := by
      refine List.mem_filter.mpr ⟨hw, ?_⟩
      rw [List.all_eq_true]
      intro u hu
      exact decide_eq_true (hwc ▸ hmax u hu)
    exact List.le_of_mem_argmin hwcand hm

/-- Soundness of the re-prompting loop: whatever it accepts belongs to the
vocabulary it validates against. -/
lemma promptLoop_mem (valid : List String) :
    ∀ (inputs : List String) (s : String),
      promptLoop valid inputs = some s → s ∈ valid := by
  intro inputs
  induction inputs with
  | nil => intro s h; exact absurd h (by simp [promptLoop])
  | cons x rest ih =>
    intro s h
    by_cases hx : x ∈ valid
    · rw [promptLoop, if_pos hx] at h
      cases h
      exact hx
    · rw [promptLoop, if_neg hx] at h
      exact ih s h

/-! Claim theorems. -/

/-- C1: for every valid month and day selector, a record is in the frame
returned by `load_data` exactly when it is one of the loaded records whose
derived `month` column equals the month selector whenever that selector is
not "all" and whose derived `day_of_week` column equals the day selector
whenever that selector is not "all"; a selector equal to "all" restricts
nothing. -/
theorem load_data_filter_correct (src : List Trip) (hg hb : Bool) (month day : String)
    (_hm : month ∈ "all" :: monthNames) (_hd : day ∈ "all" :: dayNames) (r : Record) :
    r ∈ (load_data src hg hb month day).rows ↔
      r ∈ addDerived src ∧ (month ≠ "all" → r.month = month) ∧
        (day ≠ "all" → r.day_of_week = day) :=
  mem_loadRows_iff src month day r

/-- C1 witness: the single January Monday record survives the
month = "january", day = "all" filter, and the characterisation holds for
it. -/
theorem load_data_filter_correct_witness :
    "january" ∈ "all" :: monthNames ∧ "all" ∈ "all" :: dayNames ∧
      (derive demoTrip ∈ (load_data demoSrc true true "january" "all").rows ↔
        derive demoTrip ∈ addDerived demoSrc ∧
          ("january" ≠ "all" → (derive demoTrip).month = "january") ∧
          ("all" ≠ "all" → (derive demoTrip).day_of_week = "all")) :=
  ⟨by decide, by decide,
    load_data_filter_correct demoSrc true true "january" "all" (by decide) (by decide)
      (derive demoTrip)⟩

/-- C2: the integer day/hour/minute/second decomposition computed by
`trip_duration_stats` reconstructs every nonnegative integer total of
seconds exactly. -/
theorem durationDecompose_reconstructs (total : Nat) :
    (durationDecompose total).1 * 86400 + (durationDecompose total).2.1 * 3600 +
      (durationDecompose total).2.2.1 * 60 + (durationDecompose total).2.2.2 = total := by
  simp only [durationDecompose]
  omega

/-- C8: the statistics computations are deterministic; run on the same
filtered frame twice, the time, station and user statistics come out
identical. -/
theorem stats_deterministic (df1 df2 : DataFrame) (h : df1 = df2) :
    (timeStats df1.rows, stationStats df1.rows, user_stats df1) =
      (timeStats df2.rows, stationStats df2.rows, user_stats df2) := by
  rw [h]

/-- C8 witness: two runs on the demo frame agree. -/
theorem stats_deterministic_witness :
    (timeStats (load_data demoSrc true true "all" "all").rows,
      stationStats (load_data demoSrc true true "all" "all").rows,
      user_stats (load_data demoSrc true true "all" "all")) =
    (timeStats (load_data demoSrc true true "all" "all").rows,
      stationStats (load_data demoSrc true true "all" "all").rows,
      user_stats (load_data demoSrc true true "all" "all")) :=
  stats_deterministic (load_data demoSrc true true "all" "all")
    (load_data demoSrc true true "all" "all") rfl

/-- C9: the filtering stage of `load_data` never mutates the loaded frame;
it returns a fresh filtered view, and the loaded records are unchanged
afterwards. -/
theorem filter_no_mutation (src : List Trip) (month day : String) :
    (loadFilterSt (addDerived src) month day).2 = addDerived src ∧
      (loadFilterSt (addDerived src) month day).1 = loadRows src month day := by
  unfold loadFilterSt maskSelect loadRows filterDay filterMonth
  by_cases hm : month = "all" <;> by_cases hd : day = "all" <;> simp [hm, hd]

/-- C9 witness: concrete run of the state-passing filter on the demo
data. -/
theorem filter_no_mutation_witness :
    (loadFilterSt (addDerived demoSrc) "january" "monday").2 = addDerived demoSrc ∧
      (loadFilterSt (addDerived demoSrc) "january" "monday").1 =
        loadRows demoSrc "january" "monday" :=
  filter_no_mutation demoSrc "january" "monday"

/-- C10: the frame returned by `load_data` is an order-preserving
subsequence of the loaded records, and every surviving record is one
source trip with its three derived columns added and all original fields
kept. -/
theorem loadRows_subsequence (src : List Trip) (hg hb : Bool) (month day : String) :
    (load_data src hg hb month day).rows.Sublist (addDerived src) ∧
      ∀ r ∈ (load_data src hg hb month day).rows,
        ∃ t ∈ src, r = derive t ∧ r.toTrip = t := by
  refine ⟨loadRows_sublist src month day, ?_⟩
  intro r hr
  have hmem := ((mem_loadRows_iff src month day r).mp hr).1
  obtain ⟨t, ht, hder⟩ := List.mem_map.mp hmem
  exact ⟨t, ht, hder.symm, by rw [← hder]; rfl⟩

/-- C10 witness: concrete instance on the demo data. -/
theorem loadRows_subsequence_witness :
    (load_data demoSrc true true "january" "all").rows.Sublist (addDerived demoSrc) ∧
      ∀ r ∈ (load_data demoSrc true true "january" "all").rows,
        ∃ t ∈ demoSrc, r = derive t ∧ r.toTrip = t :=
  loadRows_subsequence demoSrc true true "january" "all"

/-- C3 counterexample: on the tied two-record dataset, March comes first in
load order, yet `time_stats` reports "february" as the most common month,
because `mode()` sorts the tied values and `[0]` takes the least; so the
reported mode is NOT the value appearing first in the dataset's natural
load order. -/
theorem mode_tiebreak_not_load_order :
    timeStats (load_data tieSrc true true "all" "all").rows =
        .ok ("february", "monday", 9) ∧
      specModeFirst ((load_data tieSrc true true "all" "all").rows.map
        (fun r => r.month)) = some "march" ∧
      ("february" : String) ≠ "march" := by
  have hlt : ("february" : String) < "march" := by
    rw [String.lt_iff_toList_lt]
    decide
  have hcm : modeCandidates ((load_data tieSrc true true "all" "all").rows.map
      (fun r => r.month)) = ["march", "february"] := by decide
  have hm : pandasModeHead ((load_data tieSrc true true "all" "all").rows.map
      (fun r => r.month)) = some "february" := by
    unfold pandasModeHead
    rw [hcm]
    simp [List.argmin, List.argAux, hlt]
  have hcd : modeCandidates ((load_data tieSrc true true "all" "all").rows.map
      (fun r => r.day_of_week)) = ["monday", "monday"] := by decide
  have hdw : pandasModeHead ((load_data tieSrc true true "all" "all").rows.map
      (fun r => r.day_of_week)) = some "monday" := by
    unfold pandasModeHead
    rw [hcd]
    simp [List.argmin, List.argAux]
  have hh : pandasModeHead ((load_data tieSrc true true "all" "all").rows.map
      (fun r => r.hour)) = some 9 := by decide
  refine ⟨?_, by rfl, by decide⟩
  unfold timeStats
  rw [hm, hdw, hh]

/-- C3 amended: when several values share the maximum frequency, the mode
the code reports is the least such value in ascending sort order (the
first element of the sorted `mode()` result), deterministically; it is a
most frequent value of the column, but not in general the one appearing
first in load order. -/
theorem mode_tiebreak_least (l : List String) (hne : l ≠ []) :
    ∃ m, pandasModeHead l = some m ∧ m ∈ l ∧
      (∀ w ∈ l, l.count w ≤ l.count m) ∧
      (∀ w ∈ l, l.count w = l.count m → m ≤ w) :=
  pandasModeHead_spec l hne

/-- C3 witness: the characterisation applied to the concrete tied column
["b", "a"]. -/
theorem mode_tiebreak_least_witness :
    (["b", "a"] : List String) ≠ [] ∧
      ∃ m, pandasModeHead (["b", "a"] : List String) = some m ∧
        m ∈ (["b", "a"] : List String) ∧
        (∀ w ∈ (["b", "a"] : List String),
          (["b", "a"] : List String).count w ≤ (["b", "a"] : List String).count m) ∧
        (∀ w ∈ (["b", "a"] : List String),
          (["b", "a"] : List String).count w = (["b", "a"] : List String).count m →
            m ≤ w) :=
  ⟨by decide, mode_tiebreak_least ["b", "a"] (by decide)⟩

/-- C4 counterexample: for the three-record dataset with durations 100,
200 and 4000000 seconds the total is 4000300 seconds, but the code
decomposes it as 46d 7h 11m 40s, not 46d 7h 31m 40s, and decomposes the
mean as 15d 10h 23m 53s, not 15d 10h 17m 13s. -/
theorem trip_duration_scenario_ce :
    sumDurations (load_data durSrc true true "all" "all").rows = 4000300 ∧
      durationDecompose (sumDurations (load_data durSrc true true "all" "all").rows) ≠
        (46, 7, 31, 40) ∧
      meanDecompose (sumDurations (load_data durSrc true true "all" "all").rows)
        (load_data durSrc true true "all" "all").rows.length ≠ (15, 10, 17, 13) := by
  have hs : sumDurations (load_data durSrc true true "all" "all").rows = 4000300 := by
    decide
  have hl : (load_data durSrc true true "all" "all").rows.length = 3 := by decide
  have hmean : meanDecompose 4000300 3 = (15, 10, 23, 53) := by
    simp only [meanDecompose, pyMod, Prod.mk.injEq]
    norm_num
  refine ⟨hs, by decide, ?_⟩
  rw [hs, hl, hmean]
  decide

/-- C4 amended: for the dataset with durations 100, 200 and 4000000
seconds, `trip_duration_stats` reports the total 4000300s as 46d 7h 11m
40s, and the mean 4000300/3 (about 1333433.33s, floor 1333433) as 15d 10h
23m 53s, the fractional seconds truncated by floor at the final step. -/
theorem trip_duration_scenario :
    sumDurations (load_data durSrc true true "all" "all").rows = 4000300 ∧
      durationDecompose 4000300 = (46, 7, 11, 40) ∧
      (⌊(4000300 : ℚ) / 3⌋ : Int) = 1333433 ∧
      meanDecompose 4000300 3 = (15, 10, 23, 53) := by
  refine ⟨by decide, by decide, by norm_num, ?_⟩
  simp only [meanDecompose, pyMod, Prod.mk.injEq]
  norm_num

/-- C5 counterexample: a filter matching zero records yields an empty
frame, yet `user_stats` on that empty frame, when the dataset has neither
a Gender nor a Birth Year column, raises no exception and prints its
section text, contradicting the claim that user stats fail loudly on the
empty dataset. -/
theorem empty_user_stats_no_raise :
    (load_data demoSrc false false "february" "all").rows.length = 0 ∧
      (user_stats (load_data demoSrc false false "february" "all")).err = none ∧
      (user_stats (load_data demoSrc false false "february" "all")).lines ≠ [] := by
  decide

/-- C5 amended: when the month/day filter matches zero records the loaded
frame is empty; on it `time_stats` and `station_stats` raise (`mode()[0]`
on an empty series), while `user_stats` raises exactly when a Birth Year
column is present (then `int()` of the empty column's min raises) and
otherwise completes. -/
theorem empty_filter_stats (src : List Trip) (month day : String)
    (h : ∀ r ∈ addDerived src,
      ¬((month ≠ "all" → r.month = month) ∧ (day ≠ "all" → r.day_of_week = day))) :
    ∀ hg hb : Bool,
      (load_data src hg hb month day).rows.length = 0 ∧
        timeStats (load_data src hg hb month day).rows = .error "KeyError" ∧
        stationStats (load_data src hg hb month day).rows = .error "KeyError" ∧
        ((user_stats (load_data src hg hb month day)).err = none ↔ hb = false) := by
  intro hg hb
  have hnil : loadRows src month day = [] := loadRows_eq_nil src month day h
  have hdf : load_data src hg hb month day = ⟨[], hg, hb⟩ := by
    unfold load_data
    rw [hnil]
  rw [hdf]
  cases hg <;> cases hb <;> exact ⟨rfl, rfl, rfl, by decide⟩

/-- C5 witness: the demo January trip filtered by February leaves nothing,
and the stats behave as stated (with both optional columns present). -/
theorem empty_filter_stats_witness :
    (∀ r ∈ addDerived demoSrc,
      ¬(("february" ≠ "all" → r.month = "february") ∧
        ("all" ≠ "all" → r.day_of_week = "all"))) ∧
      ((load_data demoSrc true true "february" "all").rows.length = 0 ∧
        timeStats (load_data demoSrc true true "february" "all").rows = .error "KeyError" ∧
        stationStats (load_data demoSrc true true "february" "all").rows =
          .error "KeyError" ∧
        ((user_stats (load_data demoSrc true true "february" "all")).err = none ↔
          true = false)) :=
  ⟨by decide, empty_filter_stats demoSrc "february" "all" (by decide) true true⟩

/-- C6 counterexample: a dataset without a Gender column but with a Birth
Year column holding no value makes `user_stats` raise (`int(nan)`), so
"user_stats does not raise" does not hold for every dataset lacking
Gender, even though the "Gender data not available" text is printed. -/
theorem gender_missing_ce :
    (DataFrame.mk [] false true).hasGender = false ∧
      "Gender data not available" ∈ (user_stats (DataFrame.mk [] false true)).lines ∧
      (user_stats (DataFrame.mk [] false true)).err.isSome = true := by
  decide

/-- C6 amended: on every dataset lacking a Gender column, `user_stats`
prints "Gender data not available", and it raises no exception provided
that, when a Birth Year column is present, the column holds at least one
non-missing value; when the Gender column is present, `user_stats` prints
the gender frequency counts instead, right after the user-type counts. -/
theorem gender_missing_reported (df : DataFrame) :
    (df.hasGender = false →
      "Gender data not available" ∈ (user_stats df).lines ∧
        ((df.hasBirthYear = true → df.rows.filterMap (fun r => r.birthYear) ≠ []) →
          (user_stats df).err = none)) ∧
    (df.hasGender = true →
      ∃ rest, (user_stats df).lines =
        showCounts (valueCounts (df.rows.map (fun r => r.userType))) ++
          showCounts (valueCounts (df.rows.filterMap (fun r => r.gender))) ++ rest) := by
  constructor
  · intro h
    unfold user_stats
    rw [h]
    simp only [Bool.false_eq_true, if_false]
    cases hbt : df.hasBirthYear with
    | false => simp
    | true =>
      cases hys : df.rows.filterMap (fun r => r.birthYear) with
      | nil =>
        refine ⟨by simp, ?_⟩
        intro hp
        exact absurd rfl (hp rfl)
      | cons a t =>
        obtain ⟨m, hm, -⟩ := pandasModeHead_spec (a :: t) (List.cons_ne_nil a t)
        simp [List.min?, List.max?, hm]
  · intro h
    unfold user_stats
    rw [h, if_pos rfl]
    cases hbt : df.hasBirthYear with
    | false =>
      simp only [Bool.false_eq_true, if_false]
      exact ⟨["Birth year data not available"], rfl⟩
    | true =>
      rw [if_pos rfl]
      cases hys : df.rows.filterMap (fun r => r.birthYear) with
      | nil =>
        refine ⟨[], ?_⟩
        simp [List.min?]
      | cons a t =>
        obtain ⟨m, hm, -⟩ := pandasModeHead_spec (a :: t) (List.cons_ne_nil a t)
        refine ⟨["Earliest: " ++ toString (t.foldl min a),
          "Most recent: " ++ toString (t.foldl max a),
          "Most common: " ++ toString m], ?_⟩
        simp [List.min?, List.max?, hm]

/-- C6 witness: the empty Washington-style frame (no Gender, no Birth
Year) reports the text and raises nothing, and the Chicago-style frame
with Gender present reports the gender counts. -/
theorem gender_missing_reported_witness :
    (((DataFrame.mk [] false false).hasGender = false →
      "Gender data not available" ∈ (user_stats (DataFrame.mk [] false false)).lines ∧
        (((DataFrame.mk [] false false).hasBirthYear = true →
            (DataFrame.mk [] false false).rows.filterMap (fun r => r.birthYear) ≠ []) →
          (user_stats (DataFrame.mk [] false false)).err = none)) ∧
      ((DataFrame.mk [] false false).hasGender = true →
        ∃ rest, (user_stats (DataFrame.mk [] false false)).lines =
          showCounts (valueCounts ((DataFrame.mk [] false false).rows.map
            (fun r => r.userType))) ++
            showCounts (valueCounts ((DataFrame.mk [] false false).rows.filterMap
              (fun r => r.gender))) ++ rest)) ∧
    ((genderDF.hasGender = false →
      "Gender data not available" ∈ (user_stats genderDF).lines ∧
        ((genderDF.hasBirthYear = true →
            genderDF.rows.filterMap (fun r => r.birthYear) ≠ []) →
          (user_stats genderDF).err = none)) ∧
      (genderDF.hasGender = true →
        ∃ rest, (user_stats genderDF).lines =
          showCounts (valueCounts (genderDF.rows.map (fun r => r.userType))) ++
            showCounts (valueCounts (genderDF.rows.filterMap (fun r => r.gender))) ++
            rest)) :=
  ⟨gender_missing_reported (DataFrame.mk [] false false),
    gender_missing_reported genderDF⟩

/-- C7 counterexample: "july" is one of the twelve lowercase month names,
yet the controller vocabulary rejects it and re-prompts, so the accepted
month vocabulary is not "all" plus all twelve month names. -/
theorem month_vocab_ce :
    "july" ∉ months ∧ "july" ∈ monthNames ∧
      promptLoop months ["july"] = none ∧
      promptLoop months ["july", "march"] = some "march" := by
  decide

/-- C7 amended: the accepted month vocabulary is exactly "all" plus the
first six lowercase month names (january through june), and the day
vocabulary is exactly "all" plus the seven lowercase weekday names; the
prompting loop accepts any member of the vocabulary and rejects any other
entry by re-prompting, and anything it returns belongs to the
vocabulary. -/
theorem filter_vocabularies (x s : String) (inputs rest : List String) :
    months = "all" :: monthNames.take 6 ∧
      days = "all" :: dayNames ∧
      (x ∈ months → promptLoop months (x :: rest) = some x) ∧
      (x ∉ months → promptLoop months (x :: rest) = promptLoop months rest) ∧
      (promptLoop months inputs = some s → s ∈ months) ∧
      (x ∈ days → promptLoop days (x :: rest) = some x) ∧
      (x ∉ days → promptLoop days (x :: rest) = promptLoop days rest) ∧
      (promptLoop days inputs = some s → s ∈ days) := by
  refine ⟨by decide, by decide, ?_, ?_, promptLoop_mem months inputs s, ?_, ?_,
    promptLoop_mem days inputs s⟩
  · intro hx
    simp [promptLoop, hx]
  · intro hx
    simp [promptLoop, hx]
  · intro hx
    simp [promptLoop, hx]
  · intro hx
    simp [promptLoop, hx]

/-- C7 witness: vocabulary facts instantiated at "june" for the month
question and at the stream that enters an invalid value first. -/
theorem filter_vocabularies_witness :
    months = "all" :: monthNames.take 6 ∧
      days = "all" :: dayNames ∧
      ("june" ∈ months → promptLoop months ["june", "nope"] = some "june") ∧
      ("june" ∉ months → promptLoop months ["june", "nope"] = promptLoop months ["nope"]) ∧
      (promptLoop months ["monday"] = some "monday" → "monday" ∈ months) ∧
      ("june" ∈ days → promptLoop days ["june", "nope"] = some "june") ∧
      ("june" ∉ days → promptLoop days ["june", "nope"] = promptLoop days ["nope"]) ∧
      (promptLoop days ["monday"] = some "monday" → "monday" ∈ days) :=
  filter_vocabularies "june" "monday" ["monday"] ["nope"]

end Bikeshare
